import Mathlib

/-!
Verification of the Midea M-Thermal Arctic R290 Modbus utility scripts.

The development shallowly embeds the register encoding/decoding logic of
`scan_registers.py` and the read-modify-write setpoint logic of
`set_target.py`. Machine integers are modelled as `Nat` with the bitwise
operators used by the source (`>>`, `<<`, `&`, `|`); the Modbus transport
is modelled as an oracle of per-call outcomes (success with a value, an
error result object, or a raised exception).
-/

/-! ## Embedding of set_target.py

The script body (lines 19-28):

  target = int(float(sys.argv[1]))
  client = ModbusTcpClient(...)
  if client.connect():
      result = client.read_holding_registers(address=2, count=1, device_id=2)
      if not result.isError():
          zone2 = (result.registers[0] >> 8) & 0xFF
          new_raw = (zone2 << 8) | target
          client.write_register(address=2, value=new_raw, device_id=2)
      client.close()

The parsed command-line target is modelled as a natural number (the script
performs no range check on it). A transport read either returns a value,
returns an error-result object (`result.isError()` true), or raises an
exception; a write either succeeds or raises.
-/

/-- Outcome of one `read_holding_registers` call. -/
inductive ReadOutcome where
  | ok (v : Nat)
  | errResult
  | exn
deriving DecidableEq

/-- Outcome of one `write_register` call. -/
inductive WriteOutcome where
  | ok
  | exn
deriving DecidableEq

/-- Line 25 of set_target.py: `zone2 = (result.registers[0] >> 8) & 0xFF`. -/
def zone2_of (raw : Nat) : Nat := (raw >>> 8) &&& 0xFF

/-- Line 26 of set_target.py: `new_raw = (zone2 << 8) | target`. -/
def new_raw (raw target : Nat) : Nat := (zone2_of raw <<< 8) ||| target

/-- Observable result of one run of set_target.py after a successful parse:
the write requests issued to the device, whether `client.close()` was
executed, and whether an exception escaped the script body. -/
structure SetTargetResult where
  writes : List (Nat × Nat)
  closed : Bool
  raised : Bool
deriving DecidableEq

/-- Execution of set_target.py lines 21-28 under given transport outcomes.
`connectOk` is the value of `client.connect()`. There is no try/finally in
the source, so a raising read or write skips `client.close()`. -/
def set_target_exec (connectOk : Bool) (readO : ReadOutcome) (writeO : WriteOutcome)
    (target : Nat) : SetTargetResult :=
  if connectOk then
    match readO with
    | ReadOutcome.exn => { writes := [], closed := false, raised := true }
    | ReadOutcome.errResult => { writes := [], closed := true, raised := false }
    | ReadOutcome.ok r =>
      match writeO with
      | WriteOutcome.exn => { writes := [(2, new_raw r target)], closed := false, raised := true }
      | WriteOutcome.ok => { writes := [(2, new_raw r target)], closed := true, raised := false }
  else { writes := [], closed := false, raised := false }

/-! ### Byte-extraction lemmas -/

/-- Low byte of the composed value: for a target that fits in one byte,
`((z << 8) | t) & 0xFF = t`. -/
theorem lowByte_compose (z t : Nat) (ht : t < 256) : ((z <<< 8) ||| t) &&& 255 = t := by
  apply Nat.eq_of_testBit_eq
  intro i
  have h255 : (255 : Nat) = 2 ^ 8 - 1 := by norm_num
  rw [h255]
  simp only [Nat.testBit_and, Nat.testBit_or, Nat.testBit_shiftLeft,
    Nat.testBit_two_pow_sub_one]
  by_cases hi : i < 8
  · have h8 : ¬ (8 ≤ i) := by omega
    simp [hi, h8]
  · have hle : (256 : Nat) ≤ 2 ^ i := by
      calc (256 : Nat) = 2 ^ 8 := by norm_num
      _ ≤ 2 ^ i := Nat.pow_le_pow_right (by norm_num) (by omega)
    have ht' : t.testBit i = false := Nat.testBit_lt_two_pow (lt_of_lt_of_le ht hle)
    simp [hi, ht']

/-- High byte of the composed value: for a one-byte `z` and one-byte target,
`(((z << 8) | t) >> 8) & 0xFF = z`. -/
theorem highByte_compose (z t : Nat) (hz : z < 256) (ht : t < 256) :
    (((z <<< 8) ||| t) >>> 8) &&& 255 = z := by
  apply Nat.eq_of_testBit_eq
  intro i
  have h255 : (255 : Nat) = 2 ^ 8 - 1 := by norm_num
  rw [h255]
  simp only [Nat.testBit_and, Nat.testBit_or, Nat.testBit_shiftRight,
    Nat.testBit_shiftLeft, Nat.testBit_two_pow_sub_one]
  by_cases hi : i < 8
  · have h8 : 8 ≤ 8 + i := by omega
    have hidx : 8 + i - 8 = i := by omega
    have hle : (256 : Nat) ≤ 2 ^ (8 + i) := by
      calc (256 : Nat) = 2 ^ 8 := by norm_num
      _ ≤ 2 ^ (8 + i) := Nat.pow_le_pow_right (by norm_num) (by omega)
    have ht' : t.testBit (8 + i) = false := Nat.testBit_lt_two_pow (lt_of_lt_of_le ht hle)
    simp [hi, h8, hidx, ht']
  · have hle : (256 : Nat) ≤ 2 ^ i := by
      calc (256 : Nat) = 2 ^ 8 := by norm_num
      _ ≤ 2 ^ i := Nat.pow_le_pow_right (by norm_num) (by omega)
    have hz' : z.testBit i = false := Nat.testBit_lt_two_pow (lt_of_lt_of_le hz hle)
    simp [hi, hz']

/-- The extracted Zone2 byte fits in one byte. -/
theorem zone2_of_lt (raw : Nat) : zone2_of raw < 256 :=
  Nat.lt_succ_of_le Nat.and_le_right

/-! ## C1 -/

/-- C1 counterexample: target 256 is accepted by the entry point (the script
range-checks nothing and issues the write), with current raw value 7708
(high byte 30) the composed value is 7936, whose high byte is 31, not 30,
and whose low byte is 0, not 256. So the claimed byte-preservation property
fails for an accepted target. -/
theorem C1_counterexample :
    (set_target_exec true (ReadOutcome.ok 7708) WriteOutcome.ok 256).writes = [(2, 7936)] ∧
    ¬ (((7936 : Nat) >>> 8) &&& 0xFF = ((7708 : Nat) >>> 8) &&& 0xFF ∧
       (7936 : Nat) &&& 0xFF = 256) := by
  constructor
  · decide
  · decide

/-- C1 (amended): for every current raw value and every target in 0-255, the
value written to register 2 preserves the high (Zone2) byte and carries the
target in the low byte. -/
theorem C1_sibling_byte_preserved (r t : Nat) (ht : t ≤ 255) :
    (set_target_exec true (ReadOutcome.ok r) WriteOutcome.ok t).writes = [(2, new_raw r t)] ∧
    (new_raw r t >>> 8) &&& 0xFF = (r >>> 8) &&& 0xFF ∧
    new_raw r t &&& 0xFF = t := by
  have ht' : t < 256 := by omega
  refine ⟨rfl, ?_, ?_⟩
  · show (new_raw r t >>> 8) &&& 255 = (r >>> 8) &&& 255
    have h := highByte_compose (zone2_of r) t (zone2_of_lt r) ht'
    unfold new_raw
    rw [h]
    rfl
  · exact lowByte_compose (zone2_of r) t ht'

/-- C1 witness: concrete instance of the amended theorem at raw 7708,
target 28. -/
theorem C1_witness :
    (28 : Nat) ≤ 255 ∧
    ((set_target_exec true (ReadOutcome.ok 7708) WriteOutcome.ok 28).writes =
      [(2, new_raw 7708 28)] ∧
    (new_raw 7708 28 >>> 8) &&& 0xFF = ((7708 : Nat) >>> 8) &&& 0xFF ∧
    new_raw 7708 28 &&& 0xFF = 28) :=
  ⟨by decide, C1_sibling_byte_preserved 7708 28 (by decide)⟩

/-! ## C2 -/

/-- C2: the script performs no range check on the target. At the failing
input target 300 (out of the 0-255 byte range), with current raw value 7708,
a write request carrying the value composed from that target is issued to
the device, contradicting the claim that no such write is ever issued. -/
theorem C2_out_of_range_write_issued :
    (300 : Nat) > 255 ∧
    (set_target_exec true (ReadOutcome.ok 7708) WriteOutcome.ok 300).writes =
      [(2, new_raw 7708 300)] ∧
    (set_target_exec true (ReadOutcome.ok 7708) WriteOutcome.ok 300).writes ≠ [] := by
  refine ⟨by decide, rfl, by decide⟩

/-! ## C8 -/

/-- C8: a write to register 2 is attempted only when the preceding read of
register 2 succeeded; whenever the read fails (error result or raised
exception), no write request is issued. -/
theorem C8_no_write_after_failed_read (c : Bool) (readO : ReadOutcome)
    (w : WriteOutcome) (t : Nat)
    (h : readO = ReadOutcome.errResult ∨ readO = ReadOutcome.exn) :
    (set_target_exec c readO w t).writes = [] := by
  rcases h with h | h <;> subst h <;> cases c <;> cases w <;> rfl

/-- C8 witness: concrete instance with a failed (error-result) read. -/
theorem C8_witness :
    (ReadOutcome.errResult = ReadOutcome.errResult ∨
      ReadOutcome.errResult = ReadOutcome.exn) ∧
    (set_target_exec true ReadOutcome.errResult WriteOutcome.ok 35).writes = [] :=
  ⟨Or.inl rfl,
    C8_no_write_after_failed_read true ReadOutcome.errResult WriteOutcome.ok 35 (Or.inl rfl)⟩

/-! ## Embedding of scan_registers.py

The REGISTERS dictionary (lines 44-807) maps 214 addresses to
(name, short_desc, used_in_setup, detailed_description) tuples. The claims
depend only on which addresses are present: the keys are exactly 0-22 and
100-290, both ranges contiguous in the source. The textual payloads are not
examined by any control decision and are elided from the embedding. -/

/-- Key set of the REGISTERS dictionary of scan_registers.py: addresses
0-22 (control) and 100-290 (operating + parameter), all present. -/
def REGISTERS_keys : List Nat := List.range 23 ++ List.range' 100 191

/-- Decimal rendering with one fractional digit of `val / 10`; models
Python's `f"{val * 0.1:.1f}"` for a natural `val` (exact, since `val / 10`
has exactly one decimal digit and the float error is far below rounding). -/
def fmtDiv10 (val : Nat) : String :=
  toString (val / 10) ++ "." ++ toString (val % 10)

/-- Decimal rendering with two fractional digits of `val / 100`; models
Python's `f"{val * 0.01:.2f}"` for a natural `val`. -/
def fmtDiv100 (val : Nat) : String :=
  toString (val / 100) ++ "." ++
    (if val % 100 < 10 then "0" else "") ++ toString (val % 100)

/-- format_value (scan_registers.py lines 810-828), branch for branch. The
final `return str(val)` fallthrough applies to every address not in one of
the eight scaling lists; there is no sentinel branch and no signed branch. -/
def format_value (addr val : Nat) : String :=
  if addr ∈ [118] then toString val ++ " (" ++ fmtDiv10 val ++ " A)"
  else if addr ∈ [133] then toString val ++ " (" ++ fmtDiv10 val ++ " A)"
  else if addr ∈ [134] then toString val ++ " (" ++ fmtDiv10 val ++ " V)"
  else if addr ∈ [138] then toString val ++ " (" ++ fmtDiv100 val ++ " m3/h)"
  else if addr ∈ [140, 148, 149, 150] then toString val ++ " (" ++ fmtDiv100 val ++ " kW)"
  else if addr ∈ [143, 144, 145, 146, 152, 153, 154, 155, 156, 157, 158, 159, 160, 161, 162, 163]
    then toString val ++ " (" ++ fmtDiv100 val ++ " kWh)"
  else if addr ∈ [151, 164] then toString val ++ " (" ++ fmtDiv100 val ++ ")"
  else if addr ∈ [192] then toString val ++ " (" ++ fmtDiv10 val ++ "%)"
  else toString val

/-- One line of the scan report body (lines 865-887): a catalogued address
prints a known line (marker, name, `format_value`, description); an
uncatalogued address prints an unknown-marker line only for non-noise
values. -/
inductive ScanLine where
  | known (addr val : Nat)
  | unknown (addr val : Nat)
deriving DecidableEq

/-- Decision taken by the print loop of scan_registers.py (lines 865-887)
for one successfully read (addr, val):

  if addr in REGISTERS: print known line
  elif val != 0 and val != 0x7FFF and val != 0x7F and val != 0xFFFF and val != 255:
      print unknown line
  else: nothing. -/
def printDecision (addr val : Nat) : Option ScanLine :=
  if addr ∈ REGISTERS_keys then some (ScanLine.known addr val)
  else if val ≠ 0 ∧ val ≠ 0x7FFF ∧ val ≠ 0x7F ∧ val ≠ 0xFFFF ∧ val ≠ 255 then
    some (ScanLine.unknown addr val)
  else none

/-- The parameter-range addresses read one-by-one: `list(range(200, 291))`
(line 855). -/
def param_addrs : List Nat := List.range' 200 91

/-- Every read request (start address, register count) issued by
scan_registers: the two bulk reads `[(0, 23), (100, 100)]` (line 844) and
one single-register read per parameter address (lines 856-858). -/
def scanReads : List (Nat × Nat) :=
  [(0, 23), (100, 100)] ++ param_addrs.map (fun a => (a, 1))

/-- The eight documented high/low kWh register pairs (lines 893-902). -/
def energyPairs : List (Nat × Nat) :=
  [(143, 144), (145, 146), (152, 153), (154, 155),
   (156, 157), (158, 159), (160, 161), (162, 163)]

/-- Line 905 of scan_registers.py: `combined = (all_values[hi] * 65536 + all_values[lo]) / 100`
(Python float division, modelled exactly over the rationals: the integer
numerator is below 2^53, so the float value is the correctly rounded
rational). -/
def combinedValue (hi lo : Nat) : ℚ := (hi * 65536 + lo : ℚ) / 100

/-- The pairs loop body (lines 903-906): a combined line is produced only if
both registers of the pair are present in `all_values`. -/
def pairOutput (m : Nat → Option Nat) (hi lo : Nat) : Option ℚ :=
  match m hi, m lo with
  | some h, some l => some (combinedValue h l)
  | _, _ => none

/-! ### Scan execution model (connection lifecycle)

scan_registers (lines 831-908): after a successful `connect()`, both read
loops wrap every transport call in `try/except Exception: pass`, so a
raising read is swallowed and control always reaches the unconditional
`client.close()` on line 908. A failed `connect()` returns early without a
connection. -/

/-- Outcome of one bulk `read_holding_registers` call. -/
inductive BulkOutcome where
  | ok (vals : List Nat)
  | errResult
  | exn

/-- Python dict assignment `all_values[addr] = val`. -/
def dictInsert (m : Nat → Option Nat) (a v : Nat) : Nat → Option Nat :=
  fun x => if x = a then some v else m x

/-- Bulk-read loop body (lines 845-852): on success every returned register
is stored at `start + i`; an error result or a caught exception stores
nothing. -/
def applyBulk (m : Nat → Option Nat) (start : Nat) (o : BulkOutcome) : Nat → Option Nat :=
  match o with
  | BulkOutcome.ok vals => vals.enum.foldl (fun m iv => dictInsert m (start + iv.1) iv.2) m
  | BulkOutcome.errResult => m
  | BulkOutcome.exn => m

/-- Single-read loop body (lines 856-862): on success the value is stored;
an error result or a caught exception stores nothing. -/
def applySingle (m : Nat → Option Nat) (addr : Nat) (o : ReadOutcome) : Nat → Option Nat :=
  match o with
  | ReadOutcome.ok v => dictInsert m addr v
  | ReadOutcome.errResult => m
  | ReadOutcome.exn => m

/-- Observable result of one run of scan_registers. -/
structure ScanResult where
  connected : Bool
  allValues : Nat → Option Nat
  closed : Bool

/-- Execution of scan_registers under given per-call transport outcomes.
`bulk start count` is the outcome of the bulk read at `start`; `single a`
the outcome of the individual read of parameter address `a`. -/
def scan_exec (connectOk : Bool) (bulk : Nat → Nat → BulkOutcome)
    (single : Nat → ReadOutcome) : ScanResult :=
  if connectOk then
    let m1 := [(0, 23), (100, 100)].foldl
      (fun m p => applyBulk m p.1 (bulk p.1 p.2)) (fun _ => none)
    let m2 := param_addrs.foldl (fun m a => applySingle m a (single a)) m1
    { connected := true, allValues := m2, closed := true }
  else { connected := false, allValues := fun _ => none, closed := false }

/-! ## C3 -/

/-- C3: format_value applies no sentinel handling. The documented
"unavailable" sentinels decode to their plain numeric rendering (65535 at
address 106, 255 at address 120), indistinguishable from a genuine numeric
result; at a scaled address (143, kWh) the numeric scaling rule is even
applied to the sentinel itself. -/
theorem C3_sentinel_decoded_numerically :
    format_value 106 65535 = "65535" ∧
    format_value 120 255 = "255" ∧
    format_value 143 65535 = "65535 (655.35 kWh)" := by
  refine ⟨rfl, rfl, rfl⟩

/-! ## C4 -/

/-- C4: format_value has no signed two's-complement branch. At address 107
(outdoor ambient temperature, documented in the file header to use
two's complement, "65531 = -5"), raw 65531 decodes to the plain string
"65531" instead of -5, raw 65526 to "65526" instead of -10; raw 0 decodes
to "0". -/
theorem C4_no_signed_decode :
    format_value 107 65531 = "65531" ∧
    format_value 107 65526 = "65526" ∧
    format_value 107 0 = "0" := by
  refine ⟨rfl, rfl, rfl⟩

/-! ## C5 -/

/-- C5 counterexample: the combined value for high 2 and low 50 is
131122/100 = 1311.22, not 1311.0 as the claim states. -/
theorem C5_counterexample : combinedValue 2 50 ≠ 1311 := by
  unfold combinedValue
  norm_num

/-- C5 (amended): for each of the eight documented kWh pairs, when both
registers are present with values h and l the reported combined value is
(h * 65536 + l) / 100; in particular for high 2, low 50 the combined value
is 131122/100 = 1311.22. -/
theorem C5_combined_formula (m : Nat → Option Nat) (hi lo h l : Nat)
    (_hp : (hi, lo) ∈ energyPairs) (hhi : m hi = some h) (hlo : m lo = some l) :
    pairOutput m hi lo = some ((h * 65536 + l : ℚ) / 100) ∧
    combinedValue 2 50 = 131122 / 100 := by
  constructor
  · unfold pairOutput
    rw [hhi, hlo]
    rfl
  · unfold combinedValue
    norm_num

/-- C5 witness: concrete instance at pair (143, 144) with values 2 and 50. -/
theorem C5_witness :
    pairOutput (fun a => if a = 143 then some 2 else if a = 144 then some 50 else none)
      143 144 = some ((2 * 65536 + 50 : ℚ) / 100) ∧
    combinedValue 2 50 = 131122 / 100 :=
  C5_combined_formula _ 143 144 2 50 (by decide) rfl rfl

/-! ## C6 -/

/-- C6: for a successfully read address with no catalog entry, the print
loop emits either an unknown-marker line or nothing, and it emits the
unknown-marker line exactly when the value is not one of the five
sentinel-equivalent values 0, 32767, 127, 65535, 255. -/
theorem C6_unknown_reporting (addr val : Nat) (h : addr ∉ REGISTERS_keys) :
    (printDecision addr val = some (ScanLine.unknown addr val) ∨
      printDecision addr val = none) ∧
    (printDecision addr val = some (ScanLine.unknown addr val) ↔
      ¬ (val = 0 ∨ val = 32767 ∨ val = 127 ∨ val = 65535 ∨ val = 255)) := by
  unfold printDecision
  rw [if_neg h]
  by_cases hc : val ≠ 0 ∧ val ≠ 0x7FFF ∧ val ≠ 0x7F ∧ val ≠ 0xFFFF ∧ val ≠ 255
  · rw [if_pos hc]
    exact ⟨Or.inl rfl, ⟨fun _ => by tauto, fun _ => rfl⟩⟩
  · rw [if_neg hc]
    refine ⟨Or.inr rfl, ⟨fun hx => Option.noConfusion hx, fun hv => absurd ?_ hc⟩⟩
    tauto

/-- C6 witness: concrete instance at uncatalogued address 50 with value 42
(reported) packaged with the theorem applied there. -/
theorem C6_witness :
    (50 : Nat) ∉ REGISTERS_keys ∧
    ((printDecision 50 42 = some (ScanLine.unknown 50 42) ∨
      printDecision 50 42 = none) ∧
    (printDecision 50 42 = some (ScanLine.unknown 50 42) ↔
      ¬ ((42 : Nat) = 0 ∨ (42 : Nat) = 32767 ∨ (42 : Nat) = 127 ∨
         (42 : Nat) = 65535 ∨ (42 : Nat) = 255))) :=
  ⟨by decide, C6_unknown_reporting 50 42 (by decide)⟩

/-! ## C7 -/

set_option maxRecDepth 8192 in
/-- C7: every read request issued by the scan with count greater than 1
covers only addresses within 0-22 or 100-199 and never touches 200-290, and
every request whose start address lies in 200-290 asks for exactly one
register. -/
theorem C7_no_bulk_read_in_param_range :
    ∀ p ∈ scanReads,
      (1 < p.2 → ∀ a, a < p.1 + p.2 → p.1 ≤ a →
        (a ≤ 22 ∨ (100 ≤ a ∧ a ≤ 199)) ∧ ¬ (200 ≤ a ∧ a ≤ 290)) ∧
      (200 ≤ p.1 ∧ p.1 ≤ 290 → p.2 = 1) := by
  decide

/-- C7 witness: the theorem applied to the concrete request (0, 23). -/
theorem C7_witness :
    (0, 23) ∈ scanReads ∧
    ((1 < (0, 23).2 → ∀ a, a < (0, 23).1 + (0, 23).2 → (0, 23).1 ≤ a →
        (a ≤ 22 ∨ (100 ≤ a ∧ a ≤ 199)) ∧ ¬ (200 ≤ a ∧ a ≤ 290)) ∧
      (200 ≤ (0, 23).1 ∧ (0, 23).1 ≤ 290 → (0, 23).2 = 1)) :=
  ⟨by decide, C7_no_bulk_read_in_param_range (0, 23) (by decide)⟩

/-! ## C9 -/

/-- C9 counterexample: in set_target.py a read of register 2 that raises an
exception after a successful connect propagates out of the script body
(there is no try/finally), and `client.close()` is never executed. -/
theorem C9_counterexample :
    (set_target_exec true ReadOutcome.exn WriteOutcome.ok 35).closed = false ∧
    (set_target_exec true ReadOutcome.exn WriteOutcome.ok 35).raised = true := by
  refine ⟨rfl, rfl⟩

/-- C9 (amended): scan_registers closes the connection on every exit path
after a successful connect (read errors and read exceptions included, since
its loops catch exceptions); set_target closes the connection on every exit
path on which no transport call raises an exception (an error-returning
read included), but a raising read or write skips the close. -/
theorem C9_close_on_exit (bulk : Nat → Nat → BulkOutcome) (single : Nat → ReadOutcome)
    (r : ReadOutcome) (w : WriteOutcome) (t : Nat)
    (hr : r ≠ ReadOutcome.exn) (hw : w ≠ WriteOutcome.exn) :
    (scan_exec true bulk single).closed = true ∧
    (set_target_exec true r w t).closed = true := by
  constructor
  · rfl
  · cases r with
    | exn => exact absurd rfl hr
    | errResult => rfl
    | ok v =>
      cases w with
      | exn => exact absurd rfl hw
      | ok => rfl

/-- C9 witness: concrete instance with error-returning (non-raising) reads. -/
theorem C9_witness :
    ReadOutcome.errResult ≠ ReadOutcome.exn ∧ WriteOutcome.ok ≠ WriteOutcome.exn ∧
    ((scan_exec true (fun _ _ => BulkOutcome.errResult) (fun _ => ReadOutcome.errResult)).closed
        = true ∧
      (set_target_exec true ReadOutcome.errResult WriteOutcome.ok 35).closed = true) :=
  ⟨by decide, by decide,
    C9_close_on_exit (fun _ _ => BulkOutcome.errResult) (fun _ => ReadOutcome.errResult)
      ReadOutcome.errResult WriteOutcome.ok 35 (by decide) (by decide)⟩

/-! ## C10 -/

/-- C10: for each of the eight documented pairs, a combined 32-bit line is
produced exactly when both the high and the low register are present in the
scan result set; if either is absent the pair is omitted. -/
theorem C10_pair_requires_both (m : Nat → Option Nat) (hi lo : Nat)
    (_hp : (hi, lo) ∈ energyPairs) :
    (pairOutput m hi lo).isSome ↔ (m hi).isSome ∧ (m lo).isSome := by
  unfold pairOutput
  cases hmh : m hi <;> cases hml : m lo <;> simp

/-- C10 witness: concrete instance at pair (143, 144) with an empty result
set (neither register read): no line is produced. -/
theorem C10_witness :
    (143, 144) ∈ energyPairs ∧
    ((pairOutput (fun _ => (none : Option Nat)) 143 144).isSome ↔
      ((fun _ => (none : Option Nat)) 143).isSome ∧
      ((fun _ => (none : Option Nat)) 144).isSome) :=
  ⟨by decide, C10_pair_requires_both (fun _ => (none : Option Nat)) 143 144 (by decide)⟩
